import Mathlib

/-!
Shallow embedding of the multi-step appointment-booking wizard of the
frappe-appointment frontend
(src/frontend/src/pages/appointment/components/multiStepBooking.tsx,
customerInfoForm.tsx, servicesSelection.tsx, meetingLocation.tsx,
dateTimeSelection.tsx).

The wizard is a React component tree; we embed it as an explicit state
machine.  The mutable React/context state (`currentStep`, `formData`,
the `loading` flag of `useFrappePostCall`, `bookingResponse`,
`appointmentScheduled`, and the app-context `selectedDate`, `timeZone`,
`selectedSlot`, plus the SWR response cache of `useFrappeGetCall`) becomes
a `WizardState` record; each user interaction or asynchronous response
becomes an `Event`, and `step` is the transition function.  Requests
emitted to the booking endpoint, toast notifications and form field
errors are collected in a `StepOutput` so that "exactly one call",
"error surfaced" and "one error per invalid field" become statements
about the outputs of a run.

`getTimeZoneOffsetFromTimeZoneString` (from `@/lib/utils`, outside the
given sources) is threaded through as an abstract parameter
`tzo : String → Int`; the embedding only records that the offset put in a
payload is `tzo` applied to the stored IANA zone string, exactly as the
source applies the util function.
-/

namespace FrappeAppointment

/-! ### Data model (mirrors the TypeScript interfaces) -/

/-- The `CustomerInfo` record from customerInfoForm.tsx: the three fields of step 1. -/
structure CustomerInfo where
  name : String
  phone : String
  email : String
deriving DecidableEq, Repr

/-- The `ServicesSelectionData` record from servicesSelection.tsx: ids (doc names) of the
selected services. -/
structure ServicesSelectionData where
  selectedServices : List String
deriving DecidableEq, Repr

/-- The `CustomerLocationData` record from meetingLocation.tsx (shape of
the zod `customerLocationSchema`); `apartment` is optional in the zod schema. -/
structure CustomerLocationData where
  location : String
  street : String
  building : String
  apartment : Option String
deriving DecidableEq, Repr

/-- The two location modes of meetingLocation.tsx. -/
inductive LocationType where
  | our_location
  | customer_location
deriving DecidableEq, Repr

/-- String tag used for `locationType` in payloads, as the union type
`"our_location" | "customer_location"` in the source. -/
def LocationType.tag : LocationType → String
  | .our_location => "our_location"
  | .customer_location => "customer_location"

/-- The `MeetingLocationData` record from meetingLocation.tsx. -/
structure MeetingLocationData where
  locationType : LocationType
  ourLocation : Option String
  customerLocation : Option CustomerLocationData
deriving DecidableEq, Repr

/-- A calendar date, standing for the JS `Date` held in `selectedDate`
(only its year/month/day component is ever serialized, via the en-CA
`Intl.DateTimeFormat`). -/
structure SimpleDate where
  year : Nat
  month : Nat
  day : Nat
deriving DecidableEq, Repr

/-- The `DateTimeSelectionData` record from dateTimeSelection.tsx. -/
structure DateTimeSelectionData where
  date : SimpleDate
  startTime : String
  endTime : String
  timeZone : String
deriving DecidableEq, Repr

/-- The `BookingFormData` record from multiStepBooking.tsx: the accumulating draft,
all four step fields optional. -/
structure BookingFormData where
  customerInfo : Option CustomerInfo := none
  services : Option ServicesSelectionData := none
  location : Option MeetingLocationData := none
  dateTime : Option DateTimeSelectionData := none
deriving DecidableEq, Repr

/-- The `data.message` body of a successful `book_time_slot` call, as read by
multiStepBooking.tsx lines 192-204. -/
structure BookingResult where
  meeting_provider : String
  meet_link : String
  reschedule_url : String
  google_calendar_event_url : String
deriving DecidableEq, Repr

/-- The `meetingData` payload assembled in `submitBooking`
(multiStepBooking.tsx lines 88-113). `our_location` and
`customer_location` are `Option` because the source sets them to
`undefined` outside their mode. -/
structure MeetingData where
  duration_id : String
  date : String
  user_timezone_offset : String
  start_time : String
  end_time : String
  user_name : String
  user_email : String
  customer_phone : String
  selected_services : String
  location_type : String
  our_location : Option String
  customer_location : Option String
deriving DecidableEq, Repr

/-- A time slot as returned by `get_time_slots` and consumed by
`handleSlotSelect`. -/
structure Slot where
  start_time : String
  end_time : String
deriving DecidableEq, Repr

/-- The `message` body of a `get_time_slots` response
(dateTimeSelection.tsx lines 90-95). -/
structure AvailabilityData where
  all_available_slots_for_data : List Slot
  valid_start_date : Option String
  valid_end_date : Option String
  available_days : List Nat
deriving DecidableEq, Repr

/-! ### zod validation (customerInfoSchema, customerLocationSchema)

`zodResolver` runs the schema on submit; `onNext` fires only when every
field passes, otherwise one message is attached per failing field.
`z.string().min(n)` compares the string length with `n`;
`z.string().email()` applies the zod email regular expression: a local
part over letters, digits, underscore, apostrophe, plus, hyphen and dot
(no leading dot, no double dot, and the final character may not be a dot
or an apostrophe), an at sign, one or more labels (alphanumeric first
character, then alphanumerics or hyphens) each followed by a dot, and a
final all-letter top-level domain of length at least two.  The functions
below implement it structurally. -/

/-- Characters allowed anywhere in the local part of an email
(letters, digits, underscore, apostrophe (code 39), plus, hyphen, dot). -/
def isEmailLocalChar (c : Char) : Bool :=
  c.isAlpha || c.isDigit || c = '_' || c = Char.ofNat 39 || c = '+' || c = '-' || c = '.'

/-- Characters allowed as the final character of the local part
(no dot, no apostrophe). -/
def isEmailLocalLastChar (c : Char) : Bool :=
  c.isAlpha || c.isDigit || c = '_' || c = '+' || c = '-'

/-- No two consecutive dots (the negative lookahead of the zod regex). -/
def noDoubleDot : List Char → Bool
  | [] => true
  | [_] => true
  | a :: b :: rest => !(a = '.' && b = '.') && noDoubleDot (b :: rest)

/-- Split a character list at every occurrence of `sep` (the separator is
dropped; empty groups are kept, as `String.prototype.split`). -/
def splitOnChar (sep : Char) : List Char → List (List Char)
  | [] => [[]]
  | c :: cs =>
      match splitOnChar sep cs with
      | [] => if c = sep then [[], []] else [[c]]
      | g :: gs => if c = sep then [] :: g :: gs else (c :: g) :: gs

/-- Local part of an email: nonempty, does not start with a dot, no double
dot, chars from the local class, last char from the restricted class. -/
def validEmailLocal (lp : List Char) : Bool :=
  match lp, lp.reverse with
  | c :: _, lc :: _ =>
      !(c = '.') && lp.all isEmailLocalChar && isEmailLocalLastChar lc
        && noDoubleDot lp
  | _, _ => false

/-- A domain label: nonempty, alphanumeric first char, then alphanumeric
or hyphen. -/
def validEmailLabel (l : List Char) : Bool :=
  match l with
  | [] => false
  | c :: cs => (c.isAlpha || c.isDigit) && cs.all (fun x => x.isAlpha || x.isDigit || x = '-')

/-- The top-level domain: at least two characters, letters only. -/
def validEmailTld (t : List Char) : Bool :=
  2 ≤ t.length && t.all Char.isAlpha

/-- The zod `.email()` check: local\@label(.label)*.tld as described above. -/
def isValidEmail (s : String) : Bool :=
  match splitOnChar '@' s.data with
  | [lp, dp] =>
      validEmailLocal lp &&
        (match (splitOnChar '.' dp).reverse with
         | tld :: rest => !(rest.isEmpty) && validEmailTld tld && rest.all validEmailLabel
         | [] => false)
  | _ => false

/-- The `customerInfoSchema` checks (customerInfoForm.tsx lines 25-29): one message per
failing field, in declaration order. -/
def validateCustomerInfo (d : CustomerInfo) : List (String × String) :=
  (if d.name.length < 2 then [("name", "Name must be at least 2 characters")] else [])
    ++ (if d.phone.length < 10 then [("phone", "Phone number must be at least 10 digits")] else [])
    ++ (if isValidEmail d.email then [] else [("email", "Please enter a valid email address")])

/-- The `customerLocationSchema` checks (meetingLocation.tsx lines 27-32): `location`
and `street` need ≥ 3 characters, `building` ≥ 1, `apartment` is optional. -/
def validateCustomerLocation (d : CustomerLocationData) : List (String × String) :=
  (if d.location.length < 3 then [("location", "Location is required")] else [])
    ++ (if d.street.length < 3 then [("street", "Street name is required")] else [])
    ++ (if d.building.length < 1 then [("building", "Building name and number are required")] else [])

/-- The fixed company address constant of meetingLocation.tsx line 60. -/
def ourLocationAddress : String :=
  "Ebkar – Technology & Management Solutions, Dubai, UAE"

/-! ### Serialization helpers (`JSON.stringify`, en-CA date format) -/

/-- Lowercase hexadecimal digit, used for JSON control-character escapes. -/
def hexDigit (n : Nat) : Char :=
  if n < 10 then Char.ofNat (48 + n) else Char.ofNat (87 + n)

/-- Escape of one character inside a JSON string, as `JSON.stringify`. -/
def jsonEscapeChar (c : Char) : String :=
  if c = '"' then "\\\""
  else if c = '\\' then "\\\\"
  else if c = Char.ofNat 8 then "\\b"
  else if c = Char.ofNat 9 then "\\t"
  else if c = Char.ofNat 10 then "\\n"
  else if c = Char.ofNat 12 then "\\f"
  else if c = Char.ofNat 13 then "\\r"
  else if c.toNat < 32 then
    "\\u00" ++ String.singleton (hexDigit (c.toNat / 16)) ++ String.singleton (hexDigit (c.toNat % 16))
  else String.singleton c

/-- Rendering of `JSON.stringify` on a string. -/
def jsonString (s : String) : String :=
  "\"" ++ String.join (s.data.map jsonEscapeChar) ++ "\""

/-- Rendering of `JSON.stringify` on an array of strings, as applied to
`completeData.services.selectedServices`. -/
def jsonStringArray (xs : List String) : String :=
  "[" ++ String.intercalate "," (xs.map jsonString) ++ "]"

/-- Rendering of `JSON.stringify` on a `CustomerLocationData` object, key order as the
object literal; an `undefined` apartment is omitted. -/
def jsonCustomerLocation (d : CustomerLocationData) : String :=
  "\x7b" ++ jsonString "location" ++ ":" ++ jsonString d.location
    ++ "," ++ jsonString "street" ++ ":" ++ jsonString d.street
    ++ "," ++ jsonString "building" ++ ":" ++ jsonString d.building
    ++ (match d.apartment with
        | some a => "," ++ jsonString "apartment" ++ ":" ++ jsonString a
        | none => "")
    ++ "\x7d"

/-- Two-digit zero padding. -/
def pad2 (n : Nat) : String :=
  if n < 10 then "0" ++ toString n else toString n

/-- Rendering of the en-CA `Intl.DateTimeFormat` with numeric year, month
and day, which formats a date as `YYYY-MM-DD`. -/
def formatDateEnCA (d : SimpleDate) : String :=
  toString d.year ++ "-" ++ pad2 d.month ++ "-" ++ pad2 d.day

/-! ### Wizard state and events -/

/-- The key of a `get_time_slots` request (dateTimeSelection.tsx lines
70-88): duration id, formatted date, stringified timezone offset.  SWR
(`useFrappeGetCall`) caches responses under this key, so a response only
ever updates the entry of the request parameters it was issued for. -/
structure FetchKey where
  duration_id : String
  date : String
  user_timezone_offset : String
deriving DecidableEq, Repr

/-- First-match association lookup in the slots cache. -/
def cacheLookup (cache : List (FetchKey × AvailabilityData)) (k : FetchKey) :
    Option AvailabilityData :=
  match cache with
  | [] => none
  | (k2, v) :: rest => if k2 = k then some v else cacheLookup rest k

/-- The whole mutable state of one wizard session: the component state of
`MultiStepBooking`, the `loading` flag of `useFrappePostCall`, the shared
app-context fields used by `DateTimeSelection`, and the SWR cache of
`get_time_slots` responses. -/
structure WizardState where
  currentStep : Nat
  formData : BookingFormData
  loading : Bool
  bookingResponse : Option BookingResult
  appointmentScheduled : Bool
  selectedDate : SimpleDate
  timeZone : String
  selectedSlot : Slot
  slotsCache : List (FetchKey × AvailabilityData)
deriving DecidableEq, Repr

/-- The state when the wizard opens: step 1, empty draft, not loading,
context holding some initial date `d0` and zone `tz0`. -/
def initState (d0 : SimpleDate) (tz0 : String) : WizardState :=
  { currentStep := 1
    formData := {}
    loading := false
    bookingResponse := none
    appointmentScheduled := false
    selectedDate := d0
    timeZone := tz0
    selectedSlot := { start_time := "", end_time := "" }
    slotsCache := [] }

/-- One user interaction or asynchronous backend response. -/
inductive Event where
  | submitCustomerInfo (input : CustomerInfo)
  | submitServices (selected : List String)
  | submitLocation (locType : LocationType) (fields : CustomerLocationData)
  | dayClick (d : SimpleDate)
  | pickTimeZone (tz : String)
  | selectSlot (slot : Slot)
  | back
  | availabilityResponse (k : FetchKey) (d : AvailabilityData)
  | responseOk (r : BookingResult)
  | responseErr (msg : Option String)
deriving DecidableEq, Repr

/-- Output of one transition: the new state plus the booking requests
emitted, toast notifications shown and form field errors reported. -/
structure StepOutput where
  state : WizardState
  requests : List MeetingData := []
  toasts : List String := []
  fieldErrors : List (String × String) := []
deriving DecidableEq, Repr

/-- A transition that does nothing. -/
def idStep (s : WizardState) : StepOutput := { state := s }

/-- Model of `handleCustomerInfoNext` (multiStepBooking.tsx lines 53-56). -/
def handleCustomerInfoNext (s : WizardState) (d : CustomerInfo) : WizardState :=
  { s with formData := { s.formData with customerInfo := some d }, currentStep := 2 }

/-- Model of `handleServicesNext` (multiStepBooking.tsx lines 58-61). -/
def handleServicesNext (s : WizardState) (d : ServicesSelectionData) : WizardState :=
  { s with formData := { s.formData with services := some d }, currentStep := 3 }

/-- Model of `handleLocationNext` (multiStepBooking.tsx lines 63-66). -/
def handleLocationNext (s : WizardState) (d : MeetingLocationData) : WizardState :=
  { s with formData := { s.formData with location := some d }, currentStep := 4 }

/-- The `meetingData` payload of `submitBooking` (multiStepBooking.tsx lines
88-113); `tzo` is `getTimeZoneOffsetFromTimeZoneString`. -/
def buildMeetingData (tzo : String → Int) (durationId : String)
    (ci : CustomerInfo) (svc : ServicesSelectionData)
    (loc : MeetingLocationData) (dt : DateTimeSelectionData) : MeetingData :=
  { duration_id := durationId
    date := formatDateEnCA dt.date
    user_timezone_offset := toString (tzo dt.timeZone)
    start_time := dt.startTime
    end_time := dt.endTime
    user_name := ci.name
    user_email := ci.email
    customer_phone := ci.phone
    selected_services := jsonStringArray svc.selectedServices
    location_type := loc.locationType.tag
    our_location := if loc.locationType = .our_location then loc.ourLocation else none
    customer_location :=
      if loc.locationType = .customer_location
        then loc.customerLocation.map jsonCustomerLocation else none }

/-- Model of `submitBooking` (multiStepBooking.tsx lines 74-135): if any of the four
draft fields is missing, toast "Missing required information" and stop;
otherwise assemble `meetingData`, call `bookAppointment` (one request
emitted, `loading` true while the call is outstanding).  In the source the
function receives `completeData`, which is exactly the updated `formData`;
here the state has already been updated, so the fields are read from it. -/
def submitBooking (tzo : String → Int) (durationId : String)
    (s : WizardState) : StepOutput :=
  match s.formData.customerInfo, s.formData.services,
      s.formData.location, s.formData.dateTime with
  | some ci, some svc, some loc, some dt =>
      { state := { s with loading := true }
        requests := [buildMeetingData tzo durationId ci svc loc dt] }
  | _, _, _, _ => { state := s, toasts := ["Missing required information"] }

/-- Model of `handleDateTimeNext` (multiStepBooking.tsx lines 68-72): store the
date-time data in the draft, then submit the complete booking. -/
def handleDateTimeNext (tzo : String → Int) (durationId : String)
    (s : WizardState) (d : DateTimeSelectionData) : StepOutput :=
  submitBooking tzo durationId
    { s with formData := { s.formData with dateTime := some d } }

/-- Model of `handleSlotSelect` (dateTimeSelection.tsx lines 106-114): record the
slot in the context and call `onNext` with the current context date and
timezone. -/
def handleSlotSelect (tzo : String → Int) (durationId : String)
    (s : WizardState) (slot : Slot) : StepOutput :=
  handleDateTimeNext tzo durationId { s with selectedSlot := slot }
    { date := s.selectedDate
      startTime := slot.start_time
      endTime := slot.end_time
      timeZone := s.timeZone }

/-- The SWR key the step-4 view currently reads
(dateTimeSelection.tsx lines 70-88); note the `timeZone || "Asia/Calcutta"`
fallback used only for this request. -/
def currentFetchKey (tzo : String → Int) (durationId : String)
    (s : WizardState) : FetchKey :=
  { duration_id := durationId
    date := formatDateEnCA s.selectedDate
    user_timezone_offset :=
      toString (tzo (if s.timeZone = "" then "Asia/Calcutta" else s.timeZone)) }

/-- The slot list the step-4 view renders: the cached response for the
current key, or the empty default of dateTimeSelection.tsx lines 90-95. -/
def viewSlots (tzo : String → Int) (durationId : String)
    (s : WizardState) : List Slot :=
  match cacheLookup s.slotsCache (currentFetchKey tzo durationId s) with
  | some d => d.all_available_slots_for_data
  | none => []

/-- The message surfaced on a failed submission (multiStepBooking.tsx lines
120-134): `parseFrappeErrorMsg(err) || "Something went wrong"`.  The parsed
server message is abstracted as an `Option String`; the empty string is
falsy in JS, so it also falls back to the generic text. -/
def submissionErrorMessage (serverMsg : Option String) : String :=
  match serverMsg with
  | some m => if m = "" then "Something went wrong" else m
  | none => "Something went wrong"

/-- Transitions for user interactions.  The component of each step is rendered
only when `currentStep` matches, so events of other steps are no-ops.
Step 1 and the customer branch of step 3 run their zod schema via
`form.handleSubmit` and advance only when it reports no errors; step 2
advances only on a nonempty selection (`handleNext` guard and disabled
button) and reports no field error otherwise; step 4 exposes only the
currently rendered slots as clickable. -/
def stepUser (tzo : String → Int) (durationId : String)
    (s : WizardState) : Event → StepOutput
  | .submitCustomerInfo input =>
      if s.currentStep = 1 then
        if validateCustomerInfo input = [] then
          { state := handleCustomerInfoNext s input }
        else { state := s, fieldErrors := validateCustomerInfo input }
      else idStep s
  | .submitServices selected =>
      if s.currentStep = 2 then
        if 0 < selected.length then
          { state := handleServicesNext s { selectedServices := selected } }
        else idStep s
      else idStep s
  | .submitLocation locType fields =>
      if s.currentStep = 3 then
        match locType with
        | .our_location =>
            { state := handleLocationNext s
                { locationType := .our_location
                  ourLocation := some ourLocationAddress
                  customerLocation := none } }
        | .customer_location =>
            if validateCustomerLocation fields = [] then
              { state := handleLocationNext s
                  { locationType := .customer_location
                    ourLocation := none
                    customerLocation := some fields } }
            else { state := s, fieldErrors := validateCustomerLocation fields }
      else idStep s
  | .dayClick d =>
      if s.currentStep = 4 then
        { state := { s with selectedDate := d
                            selectedSlot := { start_time := "", end_time := "" } } }
      else idStep s
  | .pickTimeZone tz =>
      if s.currentStep = 4 then { state := { s with timeZone := tz } } else idStep s
  | .selectSlot slot =>
      if s.currentStep = 4 ∧ slot ∈ viewSlots tzo durationId s then
        handleSlotSelect tzo durationId s slot
      else idStep s
  | .back =>
      if 1 < s.currentStep then
        { state := { s with currentStep := s.currentStep - 1 } }
      else idStep s
  | _ => idStep s

/-- The full transition function.  Asynchronous events are handled first:
a `get_time_slots` response updates the SWR cache under the key of the
request it answers; the promise callbacks of `bookAppointment` fire only
while a call is outstanding.  While `loading` is true a full-screen
overlay (multiStepBooking.tsx lines 139-146) blocks every interaction, and
once `appointmentScheduled` is true the modal success dialog does; user
events are therefore gated on both flags being false. -/
def step (tzo : String → Int) (durationId : String)
    (s : WizardState) (e : Event) : StepOutput :=
  match e with
  | .availabilityResponse k d =>
      { state := { s with slotsCache := (k, d) :: s.slotsCache } }
  | .responseOk r =>
      if s.loading then
        { state := { s with loading := false
                            bookingResponse := some r
                            appointmentScheduled := true } }
      else idStep s
  | .responseErr msg =>
      if s.loading then
        { state := { s with loading := false }
          toasts := [submissionErrorMessage msg] }
      else idStep s
  | e2 =>
      if s.loading = true ∨ s.appointmentScheduled = true then idStep s
      else stepUser tzo durationId s e2

/-- A run: fold `step` over an event list, collecting the emitted booking
requests. -/
def run (tzo : String → Int) (durationId : String) :
    WizardState → List Event → WizardState × List MeetingData
  | s, [] => (s, [])
  | s, e :: rest =>
      let o := step tzo durationId s e
      let r := run tzo durationId o.state rest
      (r.1, o.requests ++ r.2)

/-! ### Generic lemmas about the transition function -/

/-- Counting digit characters never exceeds the string length. -/
theorem digitCount_le_length (s : String) :
    (s.data.filter Char.isDigit).length ≤ s.length := by
  cases s with
  | mk data => simpa [String.length] using List.length_filter_le _ data

/-- Lemma: `submitBooking` never changes the step, the draft, the scheduled flag
or the stored response. -/
theorem submitBooking_state_fields (tzo : String → Int) (durationId : String)
    (s : WizardState) :
    (submitBooking tzo durationId s).state.currentStep = s.currentStep
      ∧ (submitBooking tzo durationId s).state.formData = s.formData
      ∧ (submitBooking tzo durationId s).state.appointmentScheduled = s.appointmentScheduled
      ∧ (submitBooking tzo durationId s).state.bookingResponse = s.bookingResponse := by
  unfold submitBooking
  split <;> simp

/-- C5: for every CustomerInfo input with a name of at least 2 characters,
a phone containing at least 10 digits and an email accepted by the email
grammar, advancing from the CustomerInfo step succeeds: the input is
recorded in the draft and the controller moves to the Services step
(step 2), with no request, toast or field error emitted. -/
theorem valid_customer_info_advances (tzo : String → Int) (durationId : String)
    (s : WizardState) (ci : CustomerInfo)
    (hstep : s.currentStep = 1) (hload : s.loading = false)
    (hsched : s.appointmentScheduled = false)
    (hname : 2 ≤ ci.name.length)
    (hphone : 10 ≤ (ci.phone.data.filter Char.isDigit).length)
    (hemail : isValidEmail ci.email = true) :
    step tzo durationId s (.submitCustomerInfo ci) =
      { state := { s with
          formData := { s.formData with customerInfo := some ci }
          currentStep := 2 } } := by
  have hp : 10 ≤ ci.phone.length := le_trans hphone (digitCount_le_length ci.phone)
  have hv : validateCustomerInfo ci = [] := by
    unfold validateCustomerInfo
    rw [if_neg (by omega), if_neg (by omega), if_pos hemail]
    rfl
  simp [step, hload, hsched, stepUser, hstep, hv, handleCustomerInfoNext]

/-- Witness for C5 at a concrete valid input from the initial state. -/
theorem valid_customer_info_advances_witness :
    step (fun _ => (330 : Int)) "d1" (initState ⟨2026, 1, 1⟩ "Asia/Calcutta")
        (.submitCustomerInfo ⟨"John Doe", "0501234567", "john@example.com"⟩) =
      { state := { initState ⟨2026, 1, 1⟩ "Asia/Calcutta" with
          formData := { customerInfo := some ⟨"John Doe", "0501234567", "john@example.com"⟩ }
          currentStep := 2 } } :=
  valid_customer_info_advances _ _ _ _ rfl rfl rfl (by decide) (by decide) (by decide)

/-- C6: from any step n with n > 1, `back` moves the wizard to step n-1,
at the first step it is a no-op, and in every case the whole draft —
including the data already entered for the step being left — is kept
unchanged. -/
theorem retreat_decrements_and_preserves (tzo : String → Int) (durationId : String)
    (s : WizardState)
    (hload : s.loading = false) (hsched : s.appointmentScheduled = false) :
    ((1 < s.currentStep →
        (step tzo durationId s .back).state = { s with currentStep := s.currentStep - 1 })
      ∧ (¬ 1 < s.currentStep → (step tzo durationId s .back).state = s))
      ∧ (step tzo durationId s .back).state.formData = s.formData := by
  refine ⟨⟨fun h => ?_, fun h => ?_⟩, ?_⟩
  · simp [step, hload, hsched, stepUser, h]
  · simp [step, hload, hsched, stepUser, h, idStep]
  · by_cases h : 1 < s.currentStep <;>
      simp [step, hload, hsched, stepUser, h, idStep]

/-- Witness for C6 at a concrete state sitting on step 3 with a filled
draft: `back` lands on step 2 and the draft survives untouched. -/
theorem retreat_decrements_and_preserves_witness :
    (step (fun _ => (330 : Int)) "d1"
        ⟨3, ⟨some ⟨"Jo", "0123456789", "a@b.co"⟩, none, none, none⟩, false, none, false,
          ⟨2026, 1, 1⟩, "UTC", ⟨"", ""⟩, []⟩ .back).state.currentStep = 2
      ∧ (step (fun _ => (330 : Int)) "d1"
          ⟨3, ⟨some ⟨"Jo", "0123456789", "a@b.co"⟩, none, none, none⟩, false, none, false,
            ⟨2026, 1, 1⟩, "UTC", ⟨"", ""⟩, []⟩ .back).state.formData =
        ⟨some ⟨"Jo", "0123456789", "a@b.co"⟩, none, none, none⟩ := by
  have h := retreat_decrements_and_preserves (fun _ => (330 : Int)) "d1"
    ⟨3, ⟨some ⟨"Jo", "0123456789", "a@b.co"⟩, none, none, none⟩, false, none, false,
      ⟨2026, 1, 1⟩, "UTC", ⟨"", ""⟩, []⟩ rfl rfl
  refine ⟨?_, h.2⟩
  rw [h.1.1 (by decide)]
  decide

/-- C7: on the Services step, advancing with an empty selection fails
(leaving the state unchanged, silently), and advancing with a nonempty
selection whose ids all occur in the catalog response succeeds and records
exactly the selected ids in the draft, moving to the Location step. -/
theorem services_selection_advance (tzo : String → Int) (durationId : String)
    (s : WizardState) (catalog sel : List String)
    (hstep : s.currentStep = 2) (hload : s.loading = false)
    (hsched : s.appointmentScheduled = false)
    (hcat : ∀ i ∈ sel, i ∈ catalog) :
    (sel = [] → step tzo durationId s (.submitServices sel) = { state := s })
      ∧ (sel ≠ [] → step tzo durationId s (.submitServices sel) =
          { state := { s with
              formData := { s.formData with services := some { selectedServices := sel } }
              currentStep := 3 } }) := by
  constructor
  · intro h
    subst h
    simp [step, hload, hsched, stepUser, hstep, idStep]
  · intro h
    have hlen : 0 < sel.length := List.length_pos.mpr h
    simp [step, hload, hsched, stepUser, hstep, hlen, handleServicesNext]

/-- Witness for C7: catalog [A, B]; selecting nothing fails, selecting
only A succeeds recording exactly A (the selection list is built by
`toggleService` from the empty selection). -/
theorem services_selection_advance_witness :
    (([] : List String) = [] → step (fun _ => (330 : Int)) "d1"
        { initState ⟨2026, 1, 1⟩ "UTC" with currentStep := 2 } (.submitServices []) =
      { state := { initState ⟨2026, 1, 1⟩ "UTC" with currentStep := 2 } })
      ∧ (["A"] ≠ [] → step (fun _ => (330 : Int)) "d1"
          { initState ⟨2026, 1, 1⟩ "UTC" with currentStep := 2 } (.submitServices ["A"]) =
        { state := { ({ initState ⟨2026, 1, 1⟩ "UTC" with currentStep := 2 } : WizardState) with
            formData := { services := some { selectedServices := ["A"] } }
            currentStep := 3 } }) :=
  ⟨(services_selection_advance _ _ _ ["A", "B"] [] rfl rfl rfl (by decide)).1,
    (services_selection_advance _ _ _ ["A", "B"] ["A"] rfl rfl rfl (by decide)).2⟩

/-- C8: on the Location step, in CUSTOMER_LOCATION mode the schema requires
`location` (≥ 3 chars), `street` (≥ 3 chars) and `building` (≥ 1 char)
while `apartment` is unconstrained: a missing (too short) street makes
advance fail with the street-required error and no state change, and
meeting all three minima makes advance succeed recording the fields;
in OUR_LOCATION mode advance succeeds with no further input, recording the
fixed configured address. -/
theorem location_step_validation (tzo : String → Int) (durationId : String)
    (s : WizardState) (fields : CustomerLocationData)
    (hstep : s.currentStep = 3) (hload : s.loading = false)
    (hsched : s.appointmentScheduled = false) :
    (fields.street.length < 3 →
        (step tzo durationId s (.submitLocation .customer_location fields)).state = s
          ∧ ("street", "Street name is required")
              ∈ (step tzo durationId s (.submitLocation .customer_location fields)).fieldErrors
          ∧ (step tzo durationId s (.submitLocation .customer_location fields)).requests = [])
      ∧ (3 ≤ fields.location.length → 3 ≤ fields.street.length → 1 ≤ fields.building.length →
          step tzo durationId s (.submitLocation .customer_location fields) =
            { state := { s with
                formData := { s.formData with location := some ⟨.customer_location, none, some fields⟩ }
                currentStep := 4 } })
      ∧ step tzo durationId s (.submitLocation .our_location fields) =
          { state := { s with
              formData := { s.formData with location := some ⟨.our_location, some ourLocationAddress, none⟩ }
              currentStep := 4 } } := by
  refine ⟨fun hstreet => ?_, fun h1 h2 h3 => ?_, ?_⟩
  · have hmem : ("street", "Street name is required") ∈ validateCustomerLocation fields := by
      unfold validateCustomerLocation
      by_cases hl : fields.location.length < 3 <;>
        by_cases hb : fields.building.length < 1 <;>
          simp [hl, hb, hstreet]
    have hne : validateCustomerLocation fields ≠ [] := List.ne_nil_of_mem hmem
    refine ⟨?_, ?_, ?_⟩ <;>
      simp [step, hload, hsched, stepUser, hstep, hne, hmem]
  · have hv : validateCustomerLocation fields = [] := by
      unfold validateCustomerLocation
      rw [if_neg (by omega), if_neg (by omega), if_neg (by omega)]
      rfl
    simp [step, hload, hsched, stepUser, hstep, hv, handleLocationNext]
  · simp [step, hload, hsched, stepUser, hstep, handleLocationNext]

/-- Witness for C8: at a concrete step-3 state, a customer location with an
empty street fails with the street error, a complete one succeeds, and
OUR_LOCATION succeeds recording the configured address. -/
theorem location_step_validation_witness :
    ((step (fun _ => (330 : Int)) "d1"
          ⟨3, ⟨none, none, none, none⟩, false, none, false, ⟨2026, 1, 1⟩, "UTC", ⟨"", ""⟩, []⟩
          (.submitLocation .customer_location ⟨"Dubai", "", "B1", none⟩)).state =
        ⟨3, ⟨none, none, none, none⟩, false, none, false, ⟨2026, 1, 1⟩, "UTC", ⟨"", ""⟩, []⟩
      ∧ ("street", "Street name is required")
          ∈ (step (fun _ => (330 : Int)) "d1"
              ⟨3, ⟨none, none, none, none⟩, false, none, false, ⟨2026, 1, 1⟩, "UTC", ⟨"", ""⟩, []⟩
              (.submitLocation .customer_location ⟨"Dubai", "", "B1", none⟩)).fieldErrors)
      ∧ (step (fun _ => (330 : Int)) "d1"
          ⟨3, ⟨none, none, none, none⟩, false, none, false, ⟨2026, 1, 1⟩, "UTC", ⟨"", ""⟩, []⟩
          (.submitLocation .our_location ⟨"Dubai", "", "B1", none⟩)).state.formData.location =
        some ⟨.our_location, some ourLocationAddress, none⟩ := by
  have h := location_step_validation (fun _ => (330 : Int)) "d1"
    ⟨3, ⟨none, none, none, none⟩, false, none, false, ⟨2026, 1, 1⟩, "UTC", ⟨"", ""⟩, []⟩
    ⟨"Dubai", "", "B1", none⟩ rfl rfl rfl
  have hfail := h.1 (by decide)
  exact ⟨⟨hfail.1, hfail.2.1⟩, by rw [h.2.2]⟩

/-- C4 counterexample: on the Services step the invalid (empty) selection
does NOT produce any ValidationError: advance fails silently — the state is
unchanged but zero errors are reported for the invalid field, refuting
"advance fails with a ValidationError reporting one error per invalid
field" at this concrete input. -/
theorem services_empty_selection_reports_no_error :
    (step (fun _ => (330 : Int)) "d1"
        ⟨2, ⟨some ⟨"Jo", "0123456789", "a@b.co"⟩, none, none, none⟩, false, none, false,
          ⟨2026, 1, 1⟩, "UTC", ⟨"", ""⟩, []⟩ (.submitServices [])).state =
      ⟨2, ⟨some ⟨"Jo", "0123456789", "a@b.co"⟩, none, none, none⟩, false, none, false,
        ⟨2026, 1, 1⟩, "UTC", ⟨"", ""⟩, []⟩
      ∧ (step (fun _ => (330 : Int)) "d1"
          ⟨2, ⟨some ⟨"Jo", "0123456789", "a@b.co"⟩, none, none, none⟩, false, none, false,
            ⟨2026, 1, 1⟩, "UTC", ⟨"", ""⟩, []⟩ (.submitServices [])).fieldErrors = []
      ∧ (step (fun _ => (330 : Int)) "d1"
          ⟨2, ⟨some ⟨"Jo", "0123456789", "a@b.co"⟩, none, none, none⟩, false, none, false,
            ⟨2026, 1, 1⟩, "UTC", ⟨"", ""⟩, []⟩ (.submitServices [])).toasts = [] := by
  decide

/-- C4 (amended): every schema-invalid input leaves the current step and
the draft unchanged and emits no request; the form-based steps
(CustomerInfo, and Location in customer mode) report exactly one error per
invalid field, while the Services step fails silently, reporting no field
error for an empty selection. -/
theorem invalid_input_no_mutation (tzo : String → Int) (durationId : String) :
    (∀ (s : WizardState) (ci : CustomerInfo),
        s.loading = false → s.appointmentScheduled = false → s.currentStep = 1 →
        validateCustomerInfo ci ≠ [] →
        (step tzo durationId s (.submitCustomerInfo ci)).state = s
          ∧ (step tzo durationId s (.submitCustomerInfo ci)).requests = []
          ∧ (step tzo durationId s (.submitCustomerInfo ci)).fieldErrors.map Prod.fst =
              (if ci.name.length < 2 then ["name"] else [])
                ++ (if ci.phone.length < 10 then ["phone"] else [])
                ++ (if isValidEmail ci.email then [] else ["email"]))
      ∧ (∀ s : WizardState,
          s.loading = false → s.appointmentScheduled = false → s.currentStep = 2 →
          (step tzo durationId s (.submitServices [])).state = s
            ∧ (step tzo durationId s (.submitServices [])).requests = []
            ∧ (step tzo durationId s (.submitServices [])).fieldErrors = [])
      ∧ (∀ (s : WizardState) (fields : CustomerLocationData),
          s.loading = false → s.appointmentScheduled = false → s.currentStep = 3 →
          validateCustomerLocation fields ≠ [] →
          (step tzo durationId s (.submitLocation .customer_location fields)).state = s
            ∧ (step tzo durationId s (.submitLocation .customer_location fields)).requests = []
            ∧ (step tzo durationId s (.submitLocation .customer_location fields)).fieldErrors.map Prod.fst =
                (if fields.location.length < 3 then ["location"] else [])
                  ++ (if fields.street.length < 3 then ["street"] else [])
                  ++ (if fields.building.length < 1 then ["building"] else [])) := by
  refine ⟨fun s ci hload hsched hstep hne => ?_, fun s hload hsched hstep => ?_,
    fun s fields hload hsched hstep hne => ?_⟩
  · have he : step tzo durationId s (.submitCustomerInfo ci) =
        { state := s, fieldErrors := validateCustomerInfo ci } := by
      simp [step, stepUser, hload, hsched, hstep, hne]
    rw [he]
    refine ⟨rfl, rfl, ?_⟩
    unfold validateCustomerInfo
    by_cases h1 : ci.name.length < 2 <;> by_cases h2 : ci.phone.length < 10 <;>
      by_cases h3 : isValidEmail ci.email <;> simp [h1, h2, h3]
  · refine ⟨?_, ?_, ?_⟩ <;>
      simp [step, stepUser, hload, hsched, hstep, idStep]
  · have he : step tzo durationId s (.submitLocation .customer_location fields) =
        { state := s, fieldErrors := validateCustomerLocation fields } := by
      simp [step, stepUser, hload, hsched, hstep, hne]
    rw [he]
    refine ⟨rfl, rfl, ?_⟩
    unfold validateCustomerLocation
    by_cases h1 : fields.location.length < 3 <;> by_cases h2 : fields.street.length < 3 <;>
      by_cases h3 : fields.building.length < 1 <;> simp [h1, h2, h3]

/-- Witness for the amended C4: a concrete all-invalid CustomerInfo input
reports exactly one error per field and leaves the initial state
unchanged; a concrete empty Services selection fails with no error. -/
theorem invalid_input_no_mutation_witness :
    ((step (fun _ => (330 : Int)) "d1" (initState ⟨2026, 1, 1⟩ "UTC")
        (.submitCustomerInfo ⟨"J", "123", "bad"⟩)).state = initState ⟨2026, 1, 1⟩ "UTC"
      ∧ (step (fun _ => (330 : Int)) "d1" (initState ⟨2026, 1, 1⟩ "UTC")
          (.submitCustomerInfo ⟨"J", "123", "bad"⟩)).fieldErrors.map Prod.fst =
        ["name", "phone", "email"])
      ∧ (step (fun _ => (330 : Int)) "d1"
          ⟨2, ⟨some ⟨"Jo", "0123456789", "a@b.co"⟩, none, none, none⟩, false, none, false,
            ⟨2026, 1, 1⟩, "UTC", ⟨"", ""⟩, []⟩ (.submitServices [])).fieldErrors = [] := by
  have h1 := (invalid_input_no_mutation (fun _ => (330 : Int)) "d1").1
    (initState ⟨2026, 1, 1⟩ "UTC") ⟨"J", "123", "bad"⟩ rfl rfl rfl (by decide)
  have h2 := ((invalid_input_no_mutation (fun _ => (330 : Int)) "d1").2.1
    ⟨2, ⟨some ⟨"Jo", "0123456789", "a@b.co"⟩, none, none, none⟩, false, none, false,
      ⟨2026, 1, 1⟩, "UTC", ⟨"", ""⟩, []⟩ rfl rfl rfl).2.2
  refine ⟨⟨h1.1, ?_⟩, h2⟩
  rw [h1.2.2]
  decide

/-- A submission can only be outstanding while the wizard sits on the
DateTime step and is not yet confirmed. -/
def LoadInv (s : WizardState) : Prop :=
  s.loading = true → s.currentStep = 4 ∧ s.appointmentScheduled = false

/-- Lemma: `LoadInv` is preserved by every transition. -/
theorem loadInv_step (tzo : String → Int) (durationId : String)
    (s : WizardState) (e : Event) (h : LoadInv s) :
    LoadInv (step tzo durationId s e).state := by
  unfold LoadInv at *
  cases e <;>
    simp only [step, stepUser, idStep, handleCustomerInfoNext, handleServicesNext,
      handleLocationNext, handleSlotSelect, handleDateTimeNext, submitBooking] <;>
    (repeat' split) <;> simp_all

/-- Lemma: `LoadInv` holds in every reachable state of a run. -/
theorem loadInv_run (tzo : String → Int) (durationId : String)
    (evts : List Event) (s : WizardState) (h : LoadInv s) :
    LoadInv (run tzo durationId s evts).1 := by
  induction evts generalizing s with
  | nil => exact h
  | cons e rest ih =>
      simpa [run] using ih (step tzo durationId s e).state (loadInv_step _ _ _ _ h)

/-- C3: whenever a submission is outstanding in a reachable state, the
failure callback preserves the draft unchanged, keeps the wizard on the
DateTime step (step 4, not the confirmed terminal state), sends no further
request, and surfaces exactly one user-visible error whose text is the
server-provided message when present (and nonempty) and the generic
"Something went wrong" otherwise. -/
theorem failed_submission_preserves_draft (tzo : String → Int) (durationId : String)
    (d0 : SimpleDate) (tz0 : String) (evts : List Event) (msg : Option String)
    (hload : (run tzo durationId (initState d0 tz0) evts).1.loading = true) :
    (step tzo durationId (run tzo durationId (initState d0 tz0) evts).1
        (.responseErr msg)).state.formData =
      (run tzo durationId (initState d0 tz0) evts).1.formData
      ∧ (step tzo durationId (run tzo durationId (initState d0 tz0) evts).1
          (.responseErr msg)).state.currentStep = 4
      ∧ (step tzo durationId (run tzo durationId (initState d0 tz0) evts).1
          (.responseErr msg)).state.appointmentScheduled = false
      ∧ (step tzo durationId (run tzo durationId (initState d0 tz0) evts).1
          (.responseErr msg)).state.loading = false
      ∧ (step tzo durationId (run tzo durationId (initState d0 tz0) evts).1
          (.responseErr msg)).requests = []
      ∧ (step tzo durationId (run tzo durationId (initState d0 tz0) evts).1
          (.responseErr msg)).toasts =
        [match msg with
          | some m => if m = "" then "Something went wrong" else m
          | none => "Something went wrong"] := by
  have hinv := loadInv_run tzo durationId evts (initState d0 tz0)
    (fun hh => by simp [initState] at hh)
  obtain ⟨h4, hsched⟩ := hinv hload
  have he : step tzo durationId (run tzo durationId (initState d0 tz0) evts).1
      (.responseErr msg) =
      { state := { (run tzo durationId (initState d0 tz0) evts).1 with loading := false }
        toasts := [submissionErrorMessage msg] } := by
    simp [step, hload]
  rw [he]
  exact ⟨rfl, h4, hsched, rfl, rfl, rfl⟩

/-- Witness for C3: after a concrete complete run whose submission is
outstanding, a failure response with a server message keeps the wizard on
step 4 and surfaces exactly that message. -/
theorem failed_submission_preserves_draft_witness :
    (step (fun _ => (330 : Int)) "d1"
        (run (fun _ => (330 : Int)) "d1" (initState ⟨2026, 1, 1⟩ "Asia/Calcutta")
          [.submitCustomerInfo ⟨"John Doe", "0501234567", "john@example.com"⟩,
            .submitServices ["SVC-A"],
            .submitLocation .our_location ⟨"", "", "", none⟩,
            .dayClick ⟨2026, 10, 12⟩,
            .availabilityResponse ⟨"d1", "2026-10-12", "330"⟩ ⟨[⟨"s", "e"⟩], none, none, []⟩,
            .selectSlot ⟨"s", "e"⟩]).1
        (.responseErr (some "Slot already booked"))).state.currentStep = 4
      ∧ (step (fun _ => (330 : Int)) "d1"
          (run (fun _ => (330 : Int)) "d1" (initState ⟨2026, 1, 1⟩ "Asia/Calcutta")
            [.submitCustomerInfo ⟨"John Doe", "0501234567", "john@example.com"⟩,
              .submitServices ["SVC-A"],
              .submitLocation .our_location ⟨"", "", "", none⟩,
              .dayClick ⟨2026, 10, 12⟩,
              .availabilityResponse ⟨"d1", "2026-10-12", "330"⟩ ⟨[⟨"s", "e"⟩], none, none, []⟩,
              .selectSlot ⟨"s", "e"⟩]).1
          (.responseErr (some "Slot already booked"))).toasts = ["Slot already booked"] := by
  have h := failed_submission_preserves_draft (fun _ => (330 : Int)) "d1" ⟨2026, 1, 1⟩
    "Asia/Calcutta"
    [.submitCustomerInfo ⟨"John Doe", "0501234567", "john@example.com"⟩,
      .submitServices ["SVC-A"],
      .submitLocation .our_location ⟨"", "", "", none⟩,
      .dayClick ⟨2026, 10, 12⟩,
      .availabilityResponse ⟨"d1", "2026-10-12", "330"⟩ ⟨[⟨"s", "e"⟩], none, none, []⟩,
      .selectSlot ⟨"s", "e"⟩]
    (some "Slot already booked") (by decide)
  exact ⟨h.2.1, by rw [h.2.2.2.2.2]; decide⟩

/-- Weight of an event for the retry bound: only an explicit failure
response (which re-enables the final action) counts. -/
def errWeight : Event → Nat
  | .responseErr _ => 1
  | _ => 0

/-- Number of failure responses in an event list. -/
def countErr : List Event → Nat
  | [] => 0
  | e :: rest => errWeight e + countErr rest

/-- Submission potential of a state: 1 while a new submission could still
be started, 0 once one is outstanding or the booking is confirmed. -/
def phi (s : WizardState) : Nat :=
  if s.loading = true ∨ s.appointmentScheduled = true then 0 else 1

/-- Each transition emits at most as many requests as the potential it
consumes plus the weight of the event (1 only for a failure response). -/
theorem step_phi_bound (tzo : String → Int) (durationId : String)
    (s : WizardState) (e : Event) :
    (step tzo durationId s e).requests.length + phi (step tzo durationId s e).state
      ≤ phi s + errWeight e := by
  cases e <;>
    simp only [step, stepUser, idStep, errWeight, phi, handleCustomerInfoNext,
      handleServicesNext, handleLocationNext, handleSlotSelect,
      handleDateTimeNext, submitBooking] <;>
    (repeat' split) <;> simp_all

/-- Request-count bound along a whole run. -/
theorem run_phi_bound (tzo : String → Int) (durationId : String)
    (evts : List Event) (s : WizardState) :
    (run tzo durationId s evts).2.length + phi (run tzo durationId s evts).1
      ≤ phi s + countErr evts := by
  induction evts generalizing s with
  | nil => simp [run, countErr]
  | cons e rest ih =>
      have h1 := step_phi_bound tzo durationId s e
      have h2 := ih (step tzo durationId s e).state
      simp only [run, countErr, List.length_append]
      omega

/-- C2: submissions are single-flight. Starting from the open wizard, a
run emits at most `1 + number of failure responses` booking requests —
i.e. at most one submission per completed DateTime step until either
success or an explicit retry after failure — and while a submission is
outstanding (`loading = true`) no event whatsoever can start a second one. -/
theorem single_flight_submission (tzo : String → Int) (durationId : String)
    (d0 : SimpleDate) (tz0 : String) (evts : List Event) :
    (run tzo durationId (initState d0 tz0) evts).2.length ≤ 1 + countErr evts
      ∧ ∀ (s : WizardState) (e : Event), s.loading = true →
          (step tzo durationId s e).requests = [] := by
  constructor
  · have h := run_phi_bound tzo durationId evts (initState d0 tz0)
    have hphi : phi (initState d0 tz0) = 1 := by simp [phi, initState]
    omega
  · intro s e hl
    cases e <;> simp [step, hl, idStep]

/-- Witness for C2: a concrete complete run (including one failure and one
retry) emits at most `1 + 1` requests, and a concrete loading state ignores
a further slot click. -/
theorem single_flight_submission_witness :
    (run (fun _ => (330 : Int)) "d1" (initState ⟨2026, 1, 1⟩ "Asia/Calcutta")
        [.submitCustomerInfo ⟨"John Doe", "0501234567", "john@example.com"⟩,
          .submitServices ["SVC-A"],
          .submitLocation .our_location ⟨"", "", "", none⟩,
          .dayClick ⟨2026, 10, 12⟩,
          .availabilityResponse ⟨"d1", "2026-10-12", "330"⟩ ⟨[⟨"s", "e"⟩], none, none, []⟩,
          .selectSlot ⟨"s", "e"⟩,
          .responseErr (some "Slot already booked"),
          .selectSlot ⟨"s", "e"⟩]).2.length ≤
      1 + countErr
        [.submitCustomerInfo ⟨"John Doe", "0501234567", "john@example.com"⟩,
          .submitServices ["SVC-A"],
          .submitLocation .our_location ⟨"", "", "", none⟩,
          .dayClick ⟨2026, 10, 12⟩,
          .availabilityResponse ⟨"d1", "2026-10-12", "330"⟩ ⟨[⟨"s", "e"⟩], none, none, []⟩,
          .selectSlot ⟨"s", "e"⟩,
          .responseErr (some "Slot already booked"),
          .selectSlot ⟨"s", "e"⟩]
      ∧ (step (fun _ => (330 : Int)) "d1"
          ⟨4, ⟨none, none, none, none⟩, true, none, false, ⟨2026, 1, 1⟩, "UTC", ⟨"", ""⟩, []⟩
          (.selectSlot ⟨"s", "e"⟩)).requests = [] := by
  have h := single_flight_submission (fun _ => (330 : Int)) "d1" ⟨2026, 1, 1⟩ "Asia/Calcutta"
    [.submitCustomerInfo ⟨"John Doe", "0501234567", "john@example.com"⟩,
      .submitServices ["SVC-A"],
      .submitLocation .our_location ⟨"", "", "", none⟩,
      .dayClick ⟨2026, 10, 12⟩,
      .availabilityResponse ⟨"d1", "2026-10-12", "330"⟩ ⟨[⟨"s", "e"⟩], none, none, []⟩,
      .selectSlot ⟨"s", "e"⟩,
      .responseErr (some "Slot already booked"),
      .selectSlot ⟨"s", "e"⟩]
  exact ⟨h.1, h.2 _ _ rfl⟩

/-- Well-formedness of a stored location: exactly the shapes produced by
the `handleNext` of `MeetingLocation`. -/
def LocationWF (loc : MeetingLocationData) : Prop :=
  (loc.locationType = .our_location → loc.ourLocation.isSome ∧ loc.customerLocation = none)
    ∧ (loc.locationType = .customer_location → loc.ourLocation = none ∧ loc.customerLocation.isSome)

/-- State invariant: any location in the draft is well-formed. -/
def StateWF (s : WizardState) : Prop :=
  ∀ loc, s.formData.location = some loc → LocationWF loc

/-- The C10 property of a payload: exactly one of the two location-detail
fields is defined and it matches the declared location type. -/
def GoodPayload (p : MeetingData) : Prop :=
  (p.our_location.isSome ↔ p.location_type = "our_location")
    ∧ (p.customer_location.isSome ↔ p.location_type = "customer_location")
    ∧ (p.location_type = "our_location" ∨ p.location_type = "customer_location")

/-- A payload built from a well-formed location satisfies the C10
property. -/
theorem goodPayload_build (tzo : String → Int) (durationId : String)
    (ci : CustomerInfo) (svc : ServicesSelectionData)
    (loc : MeetingLocationData) (dt : DateTimeSelectionData)
    (h : LocationWF loc) :
    GoodPayload (buildMeetingData tzo durationId ci svc loc dt) := by
  have hne : ("our_location" : String) ≠ "customer_location" := by decide
  obtain ⟨lt, ol, cl⟩ := loc
  cases lt with
  | our_location =>
      obtain ⟨h1, h2⟩ := h.1 rfl
      refine ⟨?_, ?_, Or.inl rfl⟩ <;>
        simp_all [buildMeetingData, LocationType.tag, hne]
  | customer_location =>
      obtain ⟨h1, h2⟩ := h.2 rfl
      refine ⟨?_, ?_, Or.inr rfl⟩ <;>
        simp_all [buildMeetingData, LocationType.tag, Ne.symm hne, Option.isSome_map]

/-- Every transition preserves `StateWF` and only emits payloads with the
C10 property. -/
theorem stateWF_step (tzo : String → Int) (durationId : String)
    (s : WizardState) (e : Event) (h : StateWF s) :
    StateWF (step tzo durationId s e).state
      ∧ ∀ p ∈ (step tzo durationId s e).requests, GoodPayload p := by
  cases e with
  | selectSlot slot =>
      by_cases hg : s.loading = true ∨ s.appointmentScheduled = true
      · exact ⟨fun loc hl => h loc (by simpa [step, hg, idStep] using hl),
          by simp [step, hg, idStep]⟩
      · by_cases hgate : s.currentStep = 4 ∧ slot ∈ viewSlots tzo durationId s
        · have hs : step tzo durationId s (.selectSlot slot) =
              handleSlotSelect tzo durationId s slot := by
            simp [step, hg, stepUser, hgate]
          rw [hs]
          unfold handleSlotSelect handleDateTimeNext submitBooking
          cases hci : s.formData.customerInfo with
          | none =>
              exact ⟨fun loc hl => h loc (by simpa [hci] using hl),
                fun p hp => by simp [hci] at hp⟩
          | some ci =>
            cases hsvc : s.formData.services with
            | none =>
                exact ⟨fun loc hl => h loc (by simpa [hci, hsvc] using hl),
                  fun p hp => by simp [hci, hsvc] at hp⟩
            | some svc =>
              cases hloc : s.formData.location with
              | none =>
                  exact ⟨fun loc hl => by simp [hci, hsvc, hloc] at hl,
                    fun p hp => by simp [hci, hsvc, hloc] at hp⟩
              | some loc =>
                  refine ⟨?_, ?_⟩
                  · intro loc2 hl2
                    have heq : loc = loc2 := by simpa [hci, hsvc, hloc] using hl2
                    subst heq
                    exact h loc hloc
                  · intro p hp
                    have hp2 : p = buildMeetingData tzo durationId ci svc loc
                        ⟨s.selectedDate, slot.start_time, slot.end_time, s.timeZone⟩ := by
                      simpa [hci, hsvc, hloc] using hp
                    subst hp2
                    exact goodPayload_build _ _ _ _ _ _ (h loc hloc)
        · exact ⟨fun loc hl => h loc (by simpa [step, hg, stepUser, hgate, idStep] using hl),
            by simp [step, hg, stepUser, hgate, idStep]⟩
  | submitLocation locType fields =>
      by_cases hg : s.loading = true ∨ s.appointmentScheduled = true
      · constructor
        · simpa [step, hg, idStep] using h
        · simp [step, hg, idStep]
      · by_cases hstep : s.currentStep = 3
        · cases locType with
          | our_location =>
              constructor
              · intro loc hl
                have heq : MeetingLocationData.mk .our_location (some ourLocationAddress) none = loc := by
                  simpa [step, stepUser, hg, hstep, handleLocationNext] using hl
                subst heq
                exact ⟨fun _ => ⟨rfl, rfl⟩, fun hc => by simp at hc⟩
              · simp [step, hg, stepUser, hstep, handleLocationNext]
          | customer_location =>
              by_cases hv : validateCustomerLocation fields = []
              · constructor
                · intro loc hl
                  have heq : MeetingLocationData.mk .customer_location none (some fields) = loc := by
                    simpa [step, stepUser, hg, hstep, hv, handleLocationNext] using hl
                  subst heq
                  exact ⟨fun hc => by simp at hc, fun _ => ⟨rfl, rfl⟩⟩
                · simp [step, hg, stepUser, hstep, hv, handleLocationNext]
              · constructor
                · simpa [step, hg, stepUser, hstep, hv] using h
                · simp [step, hg, stepUser, hstep, hv]
        · constructor
          · simpa [step, hg, stepUser, hstep, idStep] using h
          · simp [step, hg, stepUser, hstep, idStep]
  | _ =>
      refine ⟨?_, ?_⟩ <;>
        · simp only [step, stepUser, idStep, handleCustomerInfoNext,
            handleServicesNext, handleLocationNext] at *
          (repeat' split) <;> simp_all [StateWF]

/-- The `StateWF` invariant implies every emitted payload of a run has the
C10 property. -/
theorem run_goodPayload (tzo : String → Int) (durationId : String)
    (evts : List Event) (s : WizardState) (h : StateWF s) :
    ∀ p ∈ (run tzo durationId s evts).2, GoodPayload p := by
  induction evts generalizing s with
  | nil => intro p hp; simp [run] at hp
  | cons e rest ih =>
      intro p hp
      obtain ⟨hwf, hreq⟩ := stateWF_step tzo durationId s e h
      simp only [run, List.mem_append] at hp
      rcases hp with hp | hp
      · exact hreq p hp
      · exact ih (step tzo durationId s e).state hwf p hp

/-- C10: in every payload a run ever sends to the booking endpoint,
exactly one of `our_location` / `customer_location` is defined and it
matches the declared `location_type`. -/
theorem payload_location_exclusive (tzo : String → Int) (durationId : String)
    (d0 : SimpleDate) (tz0 : String) (evts : List Event) :
    ∀ p ∈ (run tzo durationId (initState d0 tz0) evts).2, GoodPayload p :=
  run_goodPayload tzo durationId evts (initState d0 tz0)
    (fun loc hl => by simp [initState] at hl)

/-- Witness for C10: the payload emitted by a concrete complete run (our
location mode) satisfies the exclusivity property. -/
theorem payload_location_exclusive_witness :
    GoodPayload
      ⟨"d1", "2026-10-12", "330", "s", "e", "John Doe", "john@example.com", "0501234567",
        "[\"SVC-A\"]", "our_location", some ourLocationAddress, none⟩ :=
  payload_location_exclusive (fun _ => (330 : Int)) "d1" ⟨2026, 1, 1⟩ "Asia/Calcutta"
    [.submitCustomerInfo ⟨"John Doe", "0501234567", "john@example.com"⟩,
      .submitServices ["SVC-A"],
      .submitLocation .our_location ⟨"", "", "", none⟩,
      .dayClick ⟨2026, 10, 12⟩,
      .availabilityResponse ⟨"d1", "2026-10-12", "330"⟩ ⟨[⟨"s", "e"⟩], none, none, []⟩,
      .selectSlot ⟨"s", "e"⟩]
    ⟨"d1", "2026-10-12", "330", "s", "e", "John Doe", "john@example.com", "0501234567",
      "[\"SVC-A\"]", "our_location", some ourLocationAddress, none⟩
    (by decide)

/-- Looking up under a different key skips a cache entry. -/
theorem cacheLookup_cons_ne (cache : List (FetchKey × AvailabilityData))
    (k1 k : FetchKey) (v : AvailabilityData) (h : k1 ≠ k) :
    cacheLookup ((k1, v) :: cache) k = cacheLookup cache k := by
  simp [cacheLookup, h]

/-- C9: an Availability Query response that arrives after the user has
switched the displayed date is discarded: starting on the DateTime step
with displayed date D1, after the user clicks a different date D2, a
late-arriving response keyed to D1 changes neither the slot list shown for
D2 nor the BookingDraft. -/
theorem stale_availability_response_discarded (tzo : String → Int) (durationId : String)
    (s : WizardState) (d2 : SimpleDate) (k1 : FetchKey) (avd1 : AvailabilityData)
    (hstep : s.currentStep = 4) (hload : s.loading = false)
    (hsched : s.appointmentScheduled = false)
    (hk1 : k1.date = formatDateEnCA s.selectedDate)
    (hne : formatDateEnCA d2 ≠ formatDateEnCA s.selectedDate) :
    viewSlots tzo durationId
        (step tzo durationId (step tzo durationId s (.dayClick d2)).state
          (.availabilityResponse k1 avd1)).state
      = viewSlots tzo durationId (step tzo durationId s (.dayClick d2)).state
      ∧ (step tzo durationId (step tzo durationId s (.dayClick d2)).state
          (.availabilityResponse k1 avd1)).state.formData = s.formData := by
  have hs1 : (step tzo durationId s (.dayClick d2)).state =
      { s with selectedDate := d2, selectedSlot := ⟨"", ""⟩ } := by
    simp [step, hload, hsched, stepUser, hstep]
  rw [hs1]
  have hkne : k1 ≠ currentFetchKey tzo durationId ({ s with selectedDate := d2, selectedSlot := ⟨"", ""⟩ } : WizardState) := by
    intro hcontra
    have hd : k1.date = formatDateEnCA d2 := by rw [hcontra]; rfl
    exact hne (by rw [← hd, hk1])
  refine ⟨?_, rfl⟩
  show viewSlots tzo durationId ({ s with selectedDate := d2, selectedSlot := ⟨"", ""⟩, slotsCache := (k1, avd1) :: s.slotsCache } : WizardState) = viewSlots tzo durationId ({ s with selectedDate := d2, selectedSlot := ⟨"", ""⟩ } : WizardState)
  unfold viewSlots
  rw [show currentFetchKey tzo durationId ({ s with selectedDate := d2, selectedSlot := ⟨"", ""⟩, slotsCache := (k1, avd1) :: s.slotsCache } : WizardState) = currentFetchKey tzo durationId ({ s with selectedDate := d2, selectedSlot := ⟨"", ""⟩ } : WizardState) from rfl]
  rw [cacheLookup_cons_ne _ _ _ _ hkne]

/-- Witness for C9: with a cached slot list for the new date D2 already
present, a late response for the old date D1 leaves the D2 view and the
draft untouched. -/
theorem stale_availability_response_discarded_witness :
    viewSlots (fun _ => (330 : Int)) "d1"
        (step (fun _ => (330 : Int)) "d1"
          (step (fun _ => (330 : Int)) "d1"
            ⟨4, ⟨none, none, none, none⟩, false, none, false, ⟨2026, 10, 11⟩, "UTC", ⟨"", ""⟩,
              [(⟨"d1", "2026-10-12", "330"⟩, ⟨[⟨"x", "y"⟩], none, none, []⟩)]⟩
            (.dayClick ⟨2026, 10, 12⟩)).state
          (.availabilityResponse ⟨"d1", "2026-10-11", "330"⟩ ⟨[⟨"stale", "stale"⟩], none, none, []⟩)).state
      = viewSlots (fun _ => (330 : Int)) "d1"
          (step (fun _ => (330 : Int)) "d1"
            ⟨4, ⟨none, none, none, none⟩, false, none, false, ⟨2026, 10, 11⟩, "UTC", ⟨"", ""⟩,
              [(⟨"d1", "2026-10-12", "330"⟩, ⟨[⟨"x", "y"⟩], none, none, []⟩)]⟩
            (.dayClick ⟨2026, 10, 12⟩)).state
      ∧ (step (fun _ => (330 : Int)) "d1"
          (step (fun _ => (330 : Int)) "d1"
            ⟨4, ⟨none, none, none, none⟩, false, none, false, ⟨2026, 10, 11⟩, "UTC", ⟨"", ""⟩,
              [(⟨"d1", "2026-10-12", "330"⟩, ⟨[⟨"x", "y"⟩], none, none, []⟩)]⟩
            (.dayClick ⟨2026, 10, 12⟩)).state
          (.availabilityResponse ⟨"d1", "2026-10-11", "330"⟩ ⟨[⟨"stale", "stale"⟩], none, none, []⟩)).state.formData
        = ⟨none, none, none, none⟩ :=
  stale_availability_response_discarded (fun _ => (330 : Int)) "d1"
    ⟨4, ⟨none, none, none, none⟩, false, none, false, ⟨2026, 10, 11⟩, "UTC", ⟨"", ""⟩,
      [(⟨"d1", "2026-10-12", "330"⟩, ⟨[⟨"x", "y"⟩], none, none, []⟩)]⟩
    ⟨2026, 10, 12⟩ ⟨"d1", "2026-10-11", "330"⟩ ⟨[⟨"stale", "stale"⟩], none, none, []⟩
    rfl rfl rfl (by decide) (by decide)

/-- C1: completing all four steps with valid data (valid customer info,
nonempty service selection, a location passing the rules of its mode, a slot
from the availability response for the chosen date) makes the run emit
exactly one booking request, whose payload carries all four accumulated
sub-payloads correctly serialized — the en-CA formatted date, the offset
computed by applying the timezone-offset function to the stored IANA zone,
the JSON-serialized service ids, and the location serialized per mode —
and on a success response the controller reaches the terminal Confirmed
state holding the returned BookingResult. -/
theorem end_to_end_single_submission (tzo : String → Int) (durationId : String)
    (d0 dsel : SimpleDate) (tz0 : String)
    (ci : CustomerInfo) (sel : List String) (lt : LocationType)
    (fields : CustomerLocationData) (avd : AvailabilityData) (slot : Slot)
    (r : BookingResult)
    (hci : validateCustomerInfo ci = [])
    (hsel : sel ≠ [])
    (hloc : lt = .our_location ∨ validateCustomerLocation fields = [])
    (hslot : slot ∈ avd.all_available_slots_for_data) :
    run tzo durationId (initState d0 tz0)
        [.submitCustomerInfo ci, .submitServices sel, .submitLocation lt fields,
          .dayClick dsel,
          .availabilityResponse ⟨durationId, formatDateEnCA dsel, toString (tzo (if tz0 = "" then "Asia/Calcutta" else tz0))⟩ avd,
          .selectSlot slot, .responseOk r] =
      (⟨4,
        ⟨some ci, some ⟨sel⟩,
          some (match lt with
            | .our_location => ⟨.our_location, some ourLocationAddress, none⟩
            | .customer_location => ⟨.customer_location, none, some fields⟩),
          some ⟨dsel, slot.start_time, slot.end_time, tz0⟩⟩,
        false, some r, true, dsel, tz0, slot,
        [(⟨durationId, formatDateEnCA dsel, toString (tzo (if tz0 = "" then "Asia/Calcutta" else tz0))⟩, avd)]⟩,
       [⟨durationId, formatDateEnCA dsel, toString (tzo tz0),
          slot.start_time, slot.end_time, ci.name, ci.email, ci.phone,
          jsonStringArray sel,
          (match lt with
            | .our_location => "our_location"
            | .customer_location => "customer_location"),
          (match lt with
            | .our_location => some ourLocationAddress
            | .customer_location => none),
          (match lt with
            | .our_location => none
            | .customer_location => some (jsonCustomerLocation fields))⟩]) := by
  have hlen : 0 < sel.length := List.length_pos.mpr hsel
  rcases hloc with hlt | hv
  · subst hlt
    simp [run, step, stepUser, idStep, handleCustomerInfoNext, handleServicesNext,
      handleLocationNext, handleSlotSelect, handleDateTimeNext, submitBooking,
      buildMeetingData, viewSlots, currentFetchKey, cacheLookup, initState,
      LocationType.tag, hci, hlen, hslot]
  · cases lt with
    | our_location =>
        simp [run, step, stepUser, idStep, handleCustomerInfoNext, handleServicesNext,
          handleLocationNext, handleSlotSelect, handleDateTimeNext, submitBooking,
          buildMeetingData, viewSlots, currentFetchKey, cacheLookup, initState,
          LocationType.tag, hci, hlen, hslot]
    | customer_location =>
        simp [run, step, stepUser, idStep, handleCustomerInfoNext, handleServicesNext,
          handleLocationNext, handleSlotSelect, handleDateTimeNext, submitBooking,
          buildMeetingData, viewSlots, currentFetchKey, cacheLookup, initState,
          LocationType.tag, hci, hlen, hslot, hv]

/-- Witness for C1: a fully concrete completed run emits exactly one
payload with every field serialized, and ends confirmed holding the
returned result. -/
theorem end_to_end_single_submission_witness :
    run (fun _ => (330 : Int)) "d1" (initState ⟨2026, 1, 1⟩ "Asia/Calcutta")
        [.submitCustomerInfo ⟨"John Doe", "0501234567", "john@example.com"⟩,
          .submitServices ["SVC-A"],
          .submitLocation .our_location ⟨"", "", "", none⟩,
          .dayClick ⟨2026, 10, 12⟩,
          .availabilityResponse ⟨"d1", "2026-10-12", "330"⟩ ⟨[⟨"s", "e"⟩], none, none, []⟩,
          .selectSlot ⟨"s", "e"⟩, .responseOk ⟨"gm", "l", "r", "g"⟩] =
      (⟨4,
        ⟨some ⟨"John Doe", "0501234567", "john@example.com"⟩, some ⟨["SVC-A"]⟩,
          some ⟨.our_location, some ourLocationAddress, none⟩,
          some ⟨⟨2026, 10, 12⟩, "s", "e", "Asia/Calcutta"⟩⟩,
        false, some ⟨"gm", "l", "r", "g"⟩, true, ⟨2026, 10, 12⟩, "Asia/Calcutta", ⟨"s", "e"⟩,
        [(⟨"d1", "2026-10-12", "330"⟩, ⟨[⟨"s", "e"⟩], none, none, []⟩)]⟩,
       [⟨"d1", "2026-10-12", "330", "s", "e", "John Doe", "john@example.com", "0501234567",
          "[\"SVC-A\"]", "our_location", some ourLocationAddress, none⟩]) :=
  end_to_end_single_submission (fun _ => (330 : Int)) "d1" ⟨2026, 1, 1⟩ ⟨2026, 10, 12⟩
    "Asia/Calcutta" ⟨"John Doe", "0501234567", "john@example.com"⟩ ["SVC-A"] .our_location
    ⟨"", "", "", none⟩ ⟨[⟨"s", "e"⟩], none, none, []⟩ ⟨"s", "e"⟩ ⟨"gm", "l", "r", "g"⟩
    (by decide) (by decide) (Or.inl rfl) (by decide)

end FrappeAppointment
